import Mathlib

/-!
Verification of the ETL core of the `group1_project` repository
(`backend/services/etl.py` and `backend/routers/data.py`).

The Python code is shallowly embedded: Python runtime values that can reach
`make_json_safe` are modeled by the inductive type `PyVal`, the pandas
dataframe produced by `pd.read_csv` / `pd.read_excel` by `DataFrame`, and the
Supabase backend by an oracle record (`Env` for the write path, `DB` for the
read path) that fixes the outcome of every network call.  Every definition
follows the corresponding Python function line by line; deviations and
simplifications are noted in the comments next to the definition.
-/

/-- A Python float: either a finite value (modeled as a rational), NaN,
positive infinity or negative infinity. -/
inductive PyFloat where
  | finite (q : ℚ)
  | nan
  | inf
  | ninf
deriving DecidableEq, Repr

/-- The Python scalar returned by `numpy.generic.item()` for numpy scalars
that are not `np.integer` / `np.floating` (those are intercepted earlier in
`make_json_safe`).  `datetime` models `np.datetime64` with a non-ns unit,
whose `.item()` is a `datetime.datetime` (the string is its `str()` form);
`other` models scalars such as `np.bytes_` or `np.complex128` whose `.item()`
is some other Python object (the optional string is the result of `str()` on
that object, `none` when `str()` itself raises). -/
inductive NpItem where
  | int (n : ℤ)
  | float (f : PyFloat)
  | bool (b : Bool)
  | str (s : String)
  | datetime (r : String)
  | other (r : Option String)
deriving DecidableEq, Repr

/-- Python values flowing through the ETL pipeline.  Mapping keys are modeled
as strings (in the pipeline they are column names); `make_json_safe` passes
keys through untouched, so nothing about the studied claims depends on
non-string keys.  `pyfloat` covers native floats AND `np.float64`, which is
a subclass of Python `float` and is therefore caught by the
`isinstance(obj, (str, int, bool, float))` branch; `npFloat` models the
numpy floating types that are NOT `float` subclasses (`np.float32`,
`np.float16`), the only ones that reach the `np.floating` branch.
`npGeneric` carries the result of `pd.isna` on the scalar and the value its
`.item()` call produces (`none` when `.item()` raises).  `pyDatetime` models
`pd.Timestamp` / `datetime.datetime` values via their `str()` form.
`pyOther` models any other Python object via the result of `str()` on it
(`none` when `str()` raises). -/
inductive PyVal where
  | pynone
  | pybool (b : Bool)
  | pyint (n : ℤ)
  | pyfloat (f : PyFloat)
  | pystr (s : String)
  | pydict (entries : List (String × PyVal))
  | pylist (elems : List PyVal)
  | npInt (n : ℤ)
  | npFloat (f : PyFloat)
  | npGeneric (isna : Bool) (item : Option NpItem)
  | pyDatetime (r : String)
  | pyOther (r : Option String)

/-- The Python value `numpy.generic.item()` returns, as a `PyVal`. -/
def NpItem.toPyVal : NpItem → PyVal
  | .int n => .pyint n
  | .float f => .pyfloat f
  | .bool b => .pybool b
  | .str s => .pystr s
  | .datetime r => .pyDatetime r
  | .other r => .pyOther r

/-- Whether the guarded `if pd.isna(obj): return None` check at the top of
`make_json_safe` fires.  `pd.isna` is `True` on `None`, float NaN (native and
numpy) and na-like numpy scalars (`NaT`, `pd.NA`).  On a one-element list
`pd.isna` returns a one-element boolean array whose truth value is the
element's na-status (this also covers nested singleton lists, where the array
has one element of higher dimension); on any other list the truth test of the
resulting array raises and the exception is swallowed (`except: pass`), and
on dicts and remaining scalars `pd.isna` is `False`. -/
def isnaB : PyVal → Bool
  | .pynone => true
  | .pyfloat .nan => true
  | .npFloat .nan => true
  | .npGeneric na _ => na
  | .pylist [x] => isnaB x
  | _ => false

mutual
/-- Embedding of `make_json_safe` (etl.py lines 180-235).  Branches in source
order: the `None` / `pd.isna` guard, then `dict`, `list`,
`(str, int, bool, float)`, `np.integer`, `np.floating` (finite to native
float, non-finite to `None`), `np.generic` (returns `obj.item()`, or `None`
when it raises), `pd.Timestamp`/`datetime` (to `str(obj)`), and finally the
best-effort `str(obj)` fallback (to `None` when `str` raises). -/
def make_json_safe (v : PyVal) : PyVal :=
  if isnaB v then .pynone
  else
    match v with
    | .pynone => .pynone
    | .pydict es => .pydict (mjsEntries es)
    | .pylist es => .pylist (mjsList es)
    | .pystr s => .pystr s
    | .pyint n => .pyint n
    | .pybool b => .pybool b
    | .pyfloat f => .pyfloat f
    | .npInt n => .pyint n
    | .npFloat f =>
      match f with
      | .finite q => .pyfloat (.finite q)
      | _ => .pynone
    | .npGeneric _ it =>
      match it with
      | some i => i.toPyVal
      | none => .pynone
    | .pyDatetime r => .pystr r
    | .pyOther r =>
      match r with
      | some s => .pystr s
      | none => .pynone
termination_by sizeOf v
decreasing_by
  all_goals simp_wf
  all_goals omega

/-- The dict comprehension mapping make_json_safe over the values of a dict. -/
def mjsEntries : List (String × PyVal) → List (String × PyVal)
  | [] => []
  | (k, v) :: rest => (k, make_json_safe v) :: mjsEntries rest
termination_by es => sizeOf es
decreasing_by
  all_goals simp_wf
  all_goals omega

/-- The list comprehension mapping make_json_safe over a list. -/
def mjsList : List PyVal → List PyVal
  | [] => []
  | v :: rest => make_json_safe v :: mjsList rest
termination_by es => sizeOf es
decreasing_by
  all_goals simp_wf
  all_goals omega
end

/-- Values `x` with `pd.isna(x)` false whose normal form is nevertheless
`None`: singleton lists around such values break idempotency (for example
`make_json_safe([numpy.float32(inf)]) == [None]` but
`make_json_safe([None]) == None`, because `pd.isna([None])` is a one-element
true array). -/
def badSingleton : PyVal → Bool
  | .npFloat .inf => true
  | .npFloat .ninf => true
  | .npGeneric false none => true
  | .pyOther none => true
  | _ => false

/-- Whether a list is a singleton whose sole element is a `badSingleton`. -/
def badSingletonList : List PyVal → Bool
  | [x] => badSingleton x
  | _ => false

/-- Numpy scalars whose `.item()` unwraps to a Python object that
`make_json_safe` maps to a fixed point: plain `int`, `bool`, `str`, or a
non-NaN `float`.  `datetime`-like and `bytes`/`complex`-like items are
excluded: they are returned as-is on the first pass and stringified on the
second, breaking idempotency. -/
def tameItem : NpItem → Bool
  | .datetime _ => false
  | .other _ => false
  | .float .nan => false
  | _ => true

/-- Numpy scalars whose `.item()` is a JSON primitive. -/
def jsonItem : NpItem → Bool
  | .int _ => true
  | .bool _ => true
  | .str _ => true
  | .float (.finite _) => true
  | _ => false

mutual
/-- The domain on which `make_json_safe` is idempotent: no numpy scalar
unwrapping to a non-primitive object and no singleton list around a
`badSingleton` value, recursively. -/
def tame : PyVal → Bool
  | .pydict es => tameEntries es
  | .pylist es => tameList es && !(badSingletonList es)
  | .npGeneric false (some i) => tameItem i
  | _ => true
termination_by v => sizeOf v

def tameEntries : List (String × PyVal) → Bool
  | [] => true
  | (_, x) :: rest => tame x && tameEntries rest
termination_by es => sizeOf es

def tameList : List PyVal → Bool
  | [] => true
  | x :: rest => tame x && tameList rest
termination_by es => sizeOf es
end

mutual
/-- The domain on which the result of `make_json_safe` lands in the JSON data
model: additionally excludes native non-finite floats (passed through
unchanged by the code) and numpy scalars unwrapping to non-JSON items. -/
def jsonTame : PyVal → Bool
  | .pyfloat .inf => false
  | .pyfloat .ninf => false
  | .pydict es => jsonTameEntries es
  | .pylist es => jsonTameList es
  | .npGeneric false (some i) => jsonItem i
  | _ => true
termination_by v => sizeOf v

def jsonTameEntries : List (String × PyVal) → Bool
  | [] => true
  | (_, x) :: rest => jsonTame x && jsonTameEntries rest
termination_by es => sizeOf es

def jsonTameList : List PyVal → Bool
  | [] => true
  | x :: rest => jsonTame x && jsonTameList rest
termination_by es => sizeOf es
end

mutual
/-- Membership in the JSON data model (null, bool, finite number, string,
array, object with string keys): exactly the values a strict JSON
encoder/decoder round-trips unchanged. -/
def jsonSafe : PyVal → Bool
  | .pynone => true
  | .pybool _ => true
  | .pyint _ => true
  | .pystr _ => true
  | .pyfloat (.finite _) => true
  | .pydict es => jsonSafeEntries es
  | .pylist es => jsonSafeList es
  | _ => false
termination_by v => sizeOf v

def jsonSafeEntries : List (String × PyVal) → Bool
  | [] => true
  | (_, x) :: rest => jsonSafe x && jsonSafeEntries rest
termination_by es => sizeOf es

def jsonSafeList : List PyVal → Bool
  | [] => true
  | x :: rest => jsonSafe x && jsonSafeList rest
termination_by es => sizeOf es
end


theorem pyval_sizeOf_pos (v : PyVal) : 0 < sizeOf v := by
  cases v <;> simp <;> omega

theorem mjs_of_isna {v : PyVal} (h : isnaB v = true) :
    make_json_safe v = .pynone := by
  rw [make_json_safe.eq_def, if_pos h]

theorem mjs_pydict (es : List (String × PyVal)) :
    make_json_safe (.pydict es) = .pydict (mjsEntries es) := by
  rw [make_json_safe.eq_def]
  simp [isnaB]

theorem mjs_pylist_nil : make_json_safe (.pylist []) = .pylist [] := by
  rw [make_json_safe.eq_def]
  simp [isnaB, mjsList]

theorem mjs_pylist_single {x : PyVal} (h : isnaB x = false) :
    make_json_safe (.pylist [x]) = .pylist [make_json_safe x] := by
  rw [make_json_safe.eq_def]
  simp [isnaB, h, mjsList]

theorem mjs_pylist_cons2 (x y : PyVal) (rest : List PyVal) :
    make_json_safe (.pylist (x :: y :: rest)) =
      .pylist (make_json_safe x :: make_json_safe y :: mjsList rest) := by
  rw [make_json_safe.eq_def]
  simp [isnaB, mjsList]

theorem mjs_ne_none : ∀ {v : PyVal}, isnaB v = false → badSingleton v = false →
    make_json_safe v ≠ .pynone := by
  intro v h1 h2
  cases v with
  | pynone => simp [isnaB] at h1
  | pybool b => simp [make_json_safe, isnaB]
  | pyint n => simp [make_json_safe, isnaB]
  | pystr s => simp [make_json_safe, isnaB]
  | pyfloat f => cases f <;> simp_all [make_json_safe, isnaB]
  | pydict es => simp [mjs_pydict]
  | pylist es => rw [make_json_safe.eq_def, if_neg (by simp [h1])]; simp
  | npInt n => simp [make_json_safe, isnaB]
  | npFloat f => cases f <;> simp_all [make_json_safe, isnaB, badSingleton]
  | npGeneric na it =>
    cases na with
    | true => simp [isnaB] at h1
    | false =>
      cases it with
      | none => simp [badSingleton] at h2
      | some i => cases i <;> simp [make_json_safe, isnaB, NpItem.toPyVal]
  | pyDatetime r => simp [make_json_safe, isnaB]
  | pyOther r => cases r <;> simp_all [make_json_safe, isnaB, badSingleton]

theorem fix_of_isna {z : PyVal} (hf : make_json_safe z = z)
    (hn : isnaB z = true) : z = .pynone :=
  hf.symm.trans (mjs_of_isna hn)

theorem tameEntries_mem {es : List (String × PyVal)}
    (h : tameEntries es = true) {p : String × PyVal} (hp : p ∈ es) :
    tame p.2 = true := by
  induction es with
  | nil => cases hp
  | cons q rest ih =>
    obtain ⟨k, x⟩ := q
    simp only [tameEntries, Bool.and_eq_true] at h
    rcases List.mem_cons.mp hp with h' | h'
    · subst h'; exact h.1
    · exact ih h.2 h'

theorem tameList_mem {es : List PyVal}
    (h : tameList es = true) {p : PyVal} (hp : p ∈ es) : tame p = true := by
  induction es with
  | nil => cases hp
  | cons q rest ih =>
    simp only [tameList, Bool.and_eq_true] at h
    rcases List.mem_cons.mp hp with h' | h'
    · subst h'; exact h.1
    · exact ih h.2 h'

theorem jsonTameEntries_mem {es : List (String × PyVal)}
    (h : jsonTameEntries es = true) {p : String × PyVal} (hp : p ∈ es) :
    jsonTame p.2 = true := by
  induction es with
  | nil => cases hp
  | cons q rest ih =>
    obtain ⟨k, x⟩ := q
    simp only [jsonTameEntries, Bool.and_eq_true] at h
    rcases List.mem_cons.mp hp with h' | h'
    · subst h'; exact h.1
    · exact ih h.2 h'

theorem jsonTameList_mem {es : List PyVal}
    (h : jsonTameList es = true) {p : PyVal} (hp : p ∈ es) :
    jsonTame p = true := by
  induction es with
  | nil => cases hp
  | cons q rest ih =>
    simp only [jsonTameList, Bool.and_eq_true] at h
    rcases List.mem_cons.mp hp with h' | h'
    · subst h'; exact h.1
    · exact ih h.2 h'

theorem mjsEntries_idem_of (es : List (String × PyVal))
    (h : ∀ p ∈ es, make_json_safe (make_json_safe p.2) = make_json_safe p.2) :
    mjsEntries (mjsEntries es) = mjsEntries es := by
  induction es with
  | nil => simp [mjsEntries]
  | cons q rest ih =>
    obtain ⟨k, x⟩ := q
    simp only [mjsEntries]
    refine congrArg₂ _ (congrArg _ ?_) (ih ?_)
    · exact h (k, x) (by simp)
    · exact fun p hp => h p (by simp [hp])

theorem mjsList_idem_of (es : List PyVal)
    (h : ∀ p ∈ es, make_json_safe (make_json_safe p) = make_json_safe p) :
    mjsList (mjsList es) = mjsList es := by
  induction es with
  | nil => simp [mjsList]
  | cons x rest ih =>
    simp only [mjsList]
    refine congrArg₂ _ ?_ (ih ?_)
    · exact h x (by simp)
    · exact fun p hp => h p (by simp [hp])

theorem jsonSafeEntries_of (es : List (String × PyVal))
    (h : ∀ p ∈ es, jsonSafe (make_json_safe p.2) = true) :
    jsonSafeEntries (mjsEntries es) = true := by
  induction es with
  | nil => simp [mjsEntries, jsonSafeEntries]
  | cons q rest ih =>
    obtain ⟨k, x⟩ := q
    simp only [mjsEntries, jsonSafeEntries, Bool.and_eq_true]
    refine ⟨h (k, x) (by simp), ih ?_⟩
    exact fun p hp => h p (by simp [hp])

theorem jsonSafeList_of (es : List PyVal)
    (h : ∀ p ∈ es, jsonSafe (make_json_safe p) = true) :
    jsonSafeList (mjsList es) = true := by
  induction es with
  | nil => simp [mjsList, jsonSafeList]
  | cons x rest ih =>
    simp only [mjsList, jsonSafeList, Bool.and_eq_true]
    refine ⟨h x (by simp), ih ?_⟩
    exact fun p hp => h p (by simp [hp])

theorem mjs_idem_aux : ∀ (n : Nat) (v : PyVal), sizeOf v ≤ n → tame v = true →
    make_json_safe (make_json_safe v) = make_json_safe v := by
  intro n
  induction n with
  | zero =>
    intro v hs _
    have := pyval_sizeOf_pos v
    omega
  | succ n ih =>
    intro v hs ht
    by_cases hna : isnaB v = true
    · rw [mjs_of_isna hna]
      rw [make_json_safe.eq_def]
      simp [isnaB]
    · have hna' : isnaB v = false := by simpa using hna
      cases v with
      | pynone => simp [isnaB] at hna'
      | pybool b => simp [make_json_safe, isnaB]
      | pyint m => simp [make_json_safe, isnaB]
      | pystr s => simp [make_json_safe, isnaB]
      | pyfloat f => cases f <;> simp [make_json_safe, isnaB]
      | npInt m => simp [make_json_safe, isnaB]
      | npFloat f => cases f <;> simp [make_json_safe, isnaB]
      | npGeneric na it =>
        cases na with
        | true => simp [isnaB] at hna'
        | false =>
          cases it with
          | none => simp [make_json_safe, isnaB]
          | some i =>
            simp only [tame] at ht
            cases i with
            | int m => simp [make_json_safe, isnaB, NpItem.toPyVal]
            | float f =>
              cases f <;>
                simp_all [make_json_safe, isnaB, NpItem.toPyVal, tameItem]
            | bool b => simp [make_json_safe, isnaB, NpItem.toPyVal]
            | str s => simp [make_json_safe, isnaB, NpItem.toPyVal]
            | datetime r => simp [tameItem] at ht
            | other r => simp [tameItem] at ht
      | pyDatetime r => simp [make_json_safe, isnaB]
      | pyOther r => cases r <;> simp [make_json_safe, isnaB]
      | pydict es =>
        simp only [tame] at ht
        have hes : sizeOf es ≤ n := by simp at hs; omega
        have hrec : ∀ p ∈ es,
            make_json_safe (make_json_safe p.2) = make_json_safe p.2 := by
          intro p hp
          have h1 : sizeOf p < sizeOf es := List.sizeOf_lt_of_mem hp
          obtain ⟨a, b⟩ := p
          have h2 : sizeOf b ≤ n := by simp at h1; omega
          exact ih b h2 (tameEntries_mem ht hp)
        rw [mjs_pydict, mjs_pydict, mjsEntries_idem_of es hrec]
      | pylist es =>
        simp only [tame, Bool.and_eq_true, Bool.not_eq_true'] at ht
        obtain ⟨htl, hbs⟩ := ht
        have hes : sizeOf es ≤ n := by simp at hs; omega
        have hrec : ∀ p ∈ es,
            make_json_safe (make_json_safe p) = make_json_safe p := by
          intro p hp
          have h1 : sizeOf p < sizeOf es := List.sizeOf_lt_of_mem hp
          exact ih p (by omega) (tameList_mem htl hp)
        match es, htl, hbs, hrec, hna' with
        | [], _, _, _, _ => rw [mjs_pylist_nil, mjs_pylist_nil]
        | [x], htl, hbs, hrec, hna' =>
          have hnax : isnaB x = false := by
            simpa [isnaB] using hna'
          have hbx : badSingleton x = false := by
            simpa [badSingletonList] using hbs
          have htx : tame x = true := tameList_mem htl (by simp)
          have hfx : make_json_safe (make_json_safe x) = make_json_safe x :=
            hrec x (by simp)
          have hne : make_json_safe x ≠ .pynone := mjs_ne_none hnax hbx
          have hnafx : isnaB (make_json_safe x) = false := by
            by_contra h'
            exact hne (fix_of_isna hfx (by simpa using h'))
          rw [mjs_pylist_single hnax, mjs_pylist_single hnafx, hfx]
        | x :: y :: rest, htl, hbs, hrec, hna' =>
          have key := mjsList_idem_of _ hrec
          rw [mjs_pylist_cons2, mjs_pylist_cons2]
          simp only [mjsList] at key
          simp [key]

theorem mjs_jsonSafe_aux : ∀ (n : Nat) (v : PyVal), sizeOf v ≤ n →
    jsonTame v = true → jsonSafe (make_json_safe v) = true := by
  intro n
  induction n with
  | zero =>
    intro v hs _
    have := pyval_sizeOf_pos v
    omega
  | succ n ih =>
    intro v hs ht
    by_cases hna : isnaB v = true
    · rw [mjs_of_isna hna]; simp [jsonSafe]
    · have hna' : isnaB v = false := by simpa using hna
      cases v with
      | pynone => simp [isnaB] at hna'
      | pybool b => simp [make_json_safe, isnaB, jsonSafe]
      | pyint m => simp [make_json_safe, isnaB, jsonSafe]
      | pystr s => simp [make_json_safe, isnaB, jsonSafe]
      | pyfloat f =>
        cases f <;> simp_all [make_json_safe, isnaB, jsonSafe, jsonTame]
      | npInt m => simp [make_json_safe, isnaB, jsonSafe]
      | npFloat f => cases f <;> simp [make_json_safe, isnaB, jsonSafe]
      | npGeneric na it =>
        cases na with
        | true => simp [isnaB] at hna'
        | false =>
          cases it with
          | none => simp [make_json_safe, isnaB, jsonSafe]
          | some i =>
            simp only [jsonTame] at ht
            cases i with
            | int m => simp [make_json_safe, isnaB, NpItem.toPyVal, jsonSafe]
            | float f =>
              cases f <;>
                simp_all [make_json_safe, isnaB, NpItem.toPyVal, jsonItem,
                  jsonSafe]
            | bool b => simp [make_json_safe, isnaB, NpItem.toPyVal, jsonSafe]
            | str s => simp [make_json_safe, isnaB, NpItem.toPyVal, jsonSafe]
            | datetime r => simp [jsonItem] at ht
            | other r => simp [jsonItem] at ht
      | pyDatetime r => simp [make_json_safe, isnaB, jsonSafe]
      | pyOther r => cases r <;> simp [make_json_safe, isnaB, jsonSafe]
      | pydict es =>
        simp only [jsonTame] at ht
        have hes : sizeOf es ≤ n := by simp at hs; omega
        have hrec : ∀ p ∈ es, jsonSafe (make_json_safe p.2) = true := by
          intro p hp
          have h1 : sizeOf p < sizeOf es := List.sizeOf_lt_of_mem hp
          obtain ⟨a, b⟩ := p
          have h2 : sizeOf b ≤ n := by simp at h1; omega
          exact ih b h2 (jsonTameEntries_mem ht hp)
        rw [mjs_pydict]
        simp only [jsonSafe]
        exact jsonSafeEntries_of es hrec
      | pylist es =>
        simp only [jsonTame] at ht
        have hes : sizeOf es ≤ n := by simp at hs; omega
        have hrec : ∀ p ∈ es, jsonSafe (make_json_safe p) = true := by
          intro p hp
          have h1 : sizeOf p < sizeOf es := List.sizeOf_lt_of_mem hp
          exact ih p (by omega) (jsonTameList_mem ht hp)
        rw [make_json_safe.eq_def, if_neg (by simp [hna'])]
        simp only [jsonSafe]
        exact jsonSafeList_of es hrec

/-- A sample record value: a mapping with string, numeric, datetime and list
cells, as produced by one row of an uploaded file. -/
def sampleRecord : PyVal :=
  .pydict [("name", .pystr "alice"),
           ("amount", .npFloat (.finite (3 : ℚ))),
           ("when", .pyDatetime "2024-01-01 00:00:00"),
           ("flags", .pylist [.pybool true, .pynone, .npInt 7])]

/-- C3 (corrected): `make_json_safe` is idempotent, and its image lies in the
JSON data model (hence round-trips through a JSON encoder/decoder unchanged),
on the amended domain: idempotency requires that the value contain no numpy
scalar unwrapping to a non-primitive Python object and no singleton list
whose sole element normalizes to `None` without itself being NA (`tame`);
JSON-encodability additionally requires every native float to be finite or
NaN and every numpy scalar item to be a JSON primitive (`jsonTame`). -/
theorem make_json_safe_idempotent_and_json_encodable (v : PyVal) :
    (tame v = true → make_json_safe (make_json_safe v) = make_json_safe v) ∧
    (jsonTame v = true → jsonSafe (make_json_safe v) = true) :=
  ⟨fun h => mjs_idem_aux (sizeOf v) v le_rfl h,
   fun h => mjs_jsonSafe_aux (sizeOf v) v le_rfl h⟩

/-- C3 witness: the amended theorem applied to a concrete record value. -/
theorem make_json_safe_idempotent_and_json_encodable_witness :
    tame sampleRecord = true ∧ jsonTame sampleRecord = true ∧
    make_json_safe (make_json_safe sampleRecord) = make_json_safe sampleRecord ∧
    jsonSafe (make_json_safe sampleRecord) = true := by
  have h1 : tame sampleRecord = true := by
    simp [sampleRecord, tame, tameEntries, tameList, badSingletonList,
      badSingleton, tameItem]
  have h2 : jsonTame sampleRecord = true := by
    simp [sampleRecord, jsonTame, jsonTameEntries, jsonTameList, jsonItem]
  exact ⟨h1, h2,
    (make_json_safe_idempotent_and_json_encodable sampleRecord).1 h1,
    (make_json_safe_idempotent_and_json_encodable sampleRecord).2 h2⟩

/-- C3 counterexample: on a numpy `datetime64` scalar (second precision,
whose `.item()` is a `datetime.datetime`), `make_json_safe` returns the
`datetime` object on the first pass and its string form on the second, so
`make_json_safe(make_json_safe(v)) != make_json_safe(v)`: the claimed
unconditional idempotency is false. -/
theorem make_json_safe_not_idempotent_on_datetime64 :
    make_json_safe (make_json_safe
        (.npGeneric false (some (.datetime "2000-01-01 00:00:00")))) ≠
      make_json_safe (.npGeneric false (some (.datetime "2000-01-01 00:00:00"))) := by
  simp [make_json_safe, isnaB, NpItem.toPyVal]

/-- C4 (amended): `make_json_safe` returns JSON primitives (strings,
booleans, integers, finite floats) unchanged, and maps NaN (of any float
type) and the infinities of the non-`float`-subclass numpy floating types
(`np.float32`, `np.float16`) to `None`; infinite floats of type `float` —
which includes `np.float64` and `numpy.inf` itself, since `np.float64`
subclasses `float` — are returned unchanged (they fall into the
`isinstance(obj, (str, int, bool, float))` branch and `pd.isna` is false on
them). -/
theorem make_json_safe_on_primitives (s : String) (b : Bool) (n : ℤ) (q : ℚ) :
    make_json_safe (.pystr s) = .pystr s ∧
    make_json_safe (.pybool b) = .pybool b ∧
    make_json_safe (.pyint n) = .pyint n ∧
    make_json_safe (.pyfloat (.finite q)) = .pyfloat (.finite q) ∧
    make_json_safe (.pyfloat .nan) = .pynone ∧
    make_json_safe (.npFloat .nan) = .pynone ∧
    make_json_safe (.npFloat .inf) = .pynone ∧
    make_json_safe (.npFloat .ninf) = .pynone ∧
    make_json_safe (.pyfloat .inf) = .pyfloat .inf ∧
    make_json_safe (.pyfloat .ninf) = .pyfloat .ninf := by
  refine ⟨?_, ?_, ?_, ?_, ?_, ?_, ?_, ?_, ?_, ?_⟩ <;>
    simp [make_json_safe, isnaB]

/-- C4 counterexample: the claim says every floating-point infinity maps to
null, but a native-Python `float('inf')` is returned unchanged. -/
theorem make_json_safe_native_inf_not_null :
    make_json_safe (.pyfloat .inf) = .pyfloat .inf ∧
    PyVal.pyfloat .inf ≠ .pynone := by
  constructor
  · simp [make_json_safe, isnaB]
  · simp

/-! ## UUID handling

`str(uuid.UUID(x))`: remove every occurrence of "urn:" and "uuid:", strip
leading/trailing braces, remove every hyphen, require exactly 32 hex digits,
and render lowercase in 8-4-4-4-12 form.  (Exotic forms accepted by Python
`int(_, 16)` such as embedded underscores or surrounding whitespace are not
modeled.) -/

/-- Fuel-bounded engine of `replaceAll`.  The fuel, initialized to the
length of the list (an upper bound on the number of steps, since every step
consumes at least one character), only serves to make the recursion
structural; the zero-fuel fallback is unreachable. -/
def replaceAllAux (pat rep : List Char) : Nat → List Char → List Char
  | _, [] => []
  | 0, l => l
  | fuel + 1, c :: rest =>
    if pat ≠ [] ∧ pat.isPrefixOf (c :: rest) = true then
      rep ++ replaceAllAux pat rep fuel ((c :: rest).drop pat.length)
    else
      c :: replaceAllAux pat rep fuel rest

/-- Replace every non-overlapping occurrence of `pat` (left to right) by
`rep`, as Python `str.replace` does. -/
def replaceAll (pat rep : List Char) (l : List Char) : List Char :=
  replaceAllAux pat rep l.length l

def isHexDigitB (c : Char) : Bool :=
  c.isDigit || (('a' ≤ c && c ≤ 'f') || ('A' ≤ c && c ≤ 'F'))

def isBraceB (c : Char) : Bool := c = '{' || c = '}'

/-- Python curly-brace stripping: `strip` with the brace character set. -/
def stripBraces (l : List Char) : List Char :=
  ((l.dropWhile isBraceB).reverse.dropWhile isBraceB).reverse

/-- Canonicalization `str(uuid.UUID(s))`: `some` canonical form on success,
`none` when the constructor raises `ValueError`. -/
def uuidCanon (s : String) : Option String :=
  let l1 := replaceAll "uuid:".data [] (replaceAll "urn:".data [] s.data)
  let l := (stripBraces l1).filter (fun c => c != '-')
  if l.length = 32 && l.all isHexDigitB then
    let low := l.map Char.toLower
    some (String.mk (low.take 8) ++ "-" ++ String.mk ((low.drop 8).take 4) ++
      "-" ++ String.mk ((low.drop 12).take 4) ++ "-" ++
      String.mk ((low.drop 16).take 4) ++ "-" ++ String.mk (low.drop 20))
  else none

/-! ## The ETL write path: process_and_store_data (etl.py lines 375-548) -/

/-- The dataframe produced by `pd.read_csv` / `pd.read_excel`: column names,
per-column "still datetime64-typed after NaN replacement" flags, and the rows
of cells. -/
structure DataFrame where
  cols : List String
  dtFlags : List Bool
  rows : List (List PyVal)

structure HTTPException where
  status : Nat
  detail : String
deriving DecidableEq, Repr

/-- An error escaping an embedded function: either a fastapi `HTTPException`
or a raw `ValueError` (raised by `uuid.UUID` outside any try block). -/
inductive PyErr where
  | http (e : HTTPException)
  | valueError (msg : String)
deriving DecidableEq, Repr

/-- One element of the `insert_rows` list: `{"user_id": ..., "row_data": ...}`. -/
structure InsertRow where
  user_id : String
  row_data : PyVal

/-- The metadata dict written to the uploads catalog (etl.py lines 514-521). -/
structure UploadMeta where
  id : String
  user_id : String
  filename : String
  table_name : String
  uploaded_at : String
  rows : Nat
deriving DecidableEq, Repr

/-- The success payload of process_and_store_data (with `status: "success"`). -/
structure IngestOk where
  upload_id : String
  table_name : String
  original_rows : Nat
  cleaned_rows : Nat
  inserted_rows : Nat
deriving DecidableEq, Repr

/-- Observable side effects of one process_and_store_data call: which
provisioning strategies were attempted, the catalog rows successfully
written, and how many DROP TABLE cleanup attempts were made. -/
structure Trace where
  strategiesTried : List Nat
  catalogWrites : List UploadMeta
  dropAttempts : Nat
deriving DecidableEq, Repr

/-- Oracle for the environment of one ingestion: the generated uuid4, the
current timestamp, the parser outcomes for this file content, and the outcome
of every Supabase call the code can make.  `batchResult` receives the batch
and its index and yields `len(response.data)` on success; `singleOk i j`
tells whether the fallback single-row insert of row `j` of batch `i`
succeeds. -/
structure Env where
  uploadUuid : String
  now : String
  parseCsv : Except String DataFrame
  parseExcel : Except String DataFrame
  execSql : Except String Unit
  createRpc : Except String Unit
  existsCheck : Except String Bool
  batchResult : List InsertRow → Nat → Except String Nat
  singleOk : Nat → Nat → Bool
  catalogInsert : UploadMeta → Except String Unit
  dropTable : Except String Unit

/-- One row is dropped by `df.dropna(how="all")` iff every cell is NA. -/
def rowAllNA (r : List PyVal) : Bool := r.all isnaB

/-- Stringification of a cell in a datetime64-typed column (after NaN
replacement such columns hold only timestamp values, whose model carries the
string form; the remaining cases are defensive). -/
def pyStrOf : PyVal → String
  | .pyDatetime r => r
  | .pystr s => s
  | .pybool true => "True"
  | .pybool false => "False"
  | .pynone => "None"
  | _ => ""

/-- The per-column `astype(str)` conversion for every flagged column. -/
def applyDtFlags (flags : List Bool) (r : List PyVal) : List PyVal :=
  List.zipWith (fun f c => if f then PyVal.pystr (pyStrOf c) else c) flags r

structure TransformOut where
  records : List PyVal
  original_rows : Nat
  cleaned_rows : Nat

/-- The TRANSFORM stage (etl.py lines 396-413): drop fully-empty rows,
replace NaN/NaT by None, stringify datetime64 columns, count the cleaned
rows and convert to record mappings (`df.to_dict("records")`). -/
def transformStage (df : DataFrame) : TransformOut :=
  let kept := df.rows.filter (fun r => !(rowAllNA r))
  let replaced := kept.map (List.map (fun c => if isnaB c then PyVal.pynone else c))
  let stringified := replaced.map (applyDtFlags df.dtFlags)
  { records := stringified.map (fun r => PyVal.pydict (df.cols.zip r)),
    original_rows := df.rows.length,
    cleaned_rows := stringified.length }

/-- Python `str.lower`, character by character. -/
def lowerS (s : String) : String := String.mk (s.data.map Char.toLower)

/-- Python `str.endswith`, as a suffix test on the character list. -/
def endsWithS (s suff : String) : Bool := suff.data.isSuffixOf s.data

/-- The EXTRACT stage (etl.py lines 386-394): dispatch on the lowercased
filename suffix.  The `HTTPException(400, "Unsupported file format")` raised
for other suffixes is raised inside the same try block, so it is re-wrapped
as `400 "File read failed: 400: Unsupported file format"`. -/
def extractStage (filename : String) (env : Env) : Except PyErr DataFrame :=
  if endsWithS (lowerS filename) ".csv" then
    match env.parseCsv with
    | .ok df => .ok df
    | .error msg => .error (.http ⟨400, "File read failed: " ++ msg⟩)
  else if endsWithS (lowerS filename) ".xls" || endsWithS (lowerS filename) ".xlsx" then
    match env.parseExcel with
    | .ok df => .ok df
    | .error msg => .error (.http ⟨400, "File read failed: " ++ msg⟩)
  else
    .error (.http ⟨400, "File read failed: 400: Unsupported file format"⟩)

/-- The three-strategy provisioning cascade (etl.py lines 434-466): raw
`CREATE TABLE IF NOT EXISTS` via the `exec_sql` RPC, then the
`create_unique_data_table` RPC, then an `information_schema.tables`
existence probe treated as success when the table exists.  Returns the
strategies attempted in order, and the error if all fail — an
`HTTPException(500)` wrapping `str(create_err)`, the error of strategy 1
(both when the probe reports the table absent and when the probe itself
raises). -/
def provisionTable (env : Env) : List Nat × Option HTTPException :=
  match env.execSql with
  | .ok _ => ([1], none)
  | .error create_err =>
    match env.createRpc with
    | .ok _ => ([1, 2], none)
    | .error _ =>
      match env.existsCheck with
      | .ok true => ([1, 2, 3], none)
      | .ok false =>
        ([1, 2, 3], some ⟨500, "Failed to create table: " ++ create_err⟩)
      | .error _ =>
        ([1, 2, 3], some ⟨500, "Failed to create table: " ++ create_err⟩)

def PyVal.isDict : PyVal → Bool
  | .pydict _ => true
  | _ => false

/-- Wrapping of records into insert rows (etl.py lines 473-484): normalize
each record with make_json_safe and skip (with a warning, not an error) any
whose normalized form is not a dict. -/
def insertRowsOf (uu : String) (records : List PyVal) : List InsertRow :=
  records.filterMap (fun r =>
    let c := make_json_safe r
    if c.isDict then some ⟨uu, c⟩ else none)

/-- The batch-insert loop (etl.py lines 489-508): batches of 50; a
successful bulk insert contributes the backend-reported
`len(response.data)`; a failed bulk insert falls back to one-row inserts,
counting individual successes; `i` is the batch index. -/
def loadBatches (env : Env) (i : Nat) (rows : List InsertRow) : Nat :=
  match rows with
  | [] => 0
  | x :: xs =>
    let batch := (x :: xs).take 50
    let contrib :=
      match env.batchResult batch i with
      | .ok n => n
      | .error _ =>
        ((List.range batch.length).filter (fun j => env.singleOk i j)).length
    contrib + loadBatches env (i + 1) ((x :: xs).drop 50)
termination_by rows.length
decreasing_by simp; omega

/-- The physical table name: the literal "data_" followed by the upload uuid
with hyphens replaced by underscores (etl.py lines 381-383). -/
def dataTableName (uploadUuid : String) : String :=
  "data_" ++ String.mk (uploadUuid.data.map (fun c => if c = '-' then '_' else c))

/-- The catalog metadata row for a successful ingestion (etl.py 514-521);
its `rows` field records `cleaned_rows`, the cleaned/attempted count. -/
def metaOf (env : Env) (filename uu : String) (cleaned : Nat) : UploadMeta :=
  { id := env.uploadUuid, user_id := uu, filename := filename,
    table_name := dataTableName env.uploadUuid,
    uploaded_at := env.now, rows := cleaned }

/-- Embedding of `process_and_store_data` (etl.py lines 375-548).  Control
flow notes, each traceable to the source: the empty-records check (line 415)
precedes the `uuid.UUID(user_id)` call (line 419), which is outside the big
try block, so its ValueError escapes raw; every `HTTPException` raised inside
the try block (provisioning failure, "No valid data to insert", "No rows
were successfully inserted") is re-raised by `except HTTPException: raise`
WITHOUT any cleanup; only a non-HTTP exception (in this model: a failing
catalog insert, the one remaining raising call) reaches the generic handler
that attempts `DROP TABLE` (one `dropAttempts`) and re-raises
`500 "ETL processing failed: ..."` wrapping the original error; the result
of the drop itself is ignored (`except cleanup_err` only logs). -/
def process_and_store_data (filename user_id : String) (env : Env) :
    Except PyErr IngestOk × Trace :=
  match extractStage filename env with
  | .error e => (.error e, ⟨[], [], 0⟩)
  | .ok df =>
    let t := transformStage df
    if t.records.isEmpty then
      (.error (.http ⟨400, "No data found in file after cleaning"⟩), ⟨[], [], 0⟩)
    else
      match uuidCanon user_id with
      | none =>
        (.error (.valueError "badly formed hexadecimal UUID string"), ⟨[], [], 0⟩)
      | some uu =>
        match provisionTable env with
        | (tried, some e) => (.error (.http e), ⟨tried, [], 0⟩)
        | (tried, none) =>
          let insert_rows := insertRowsOf uu t.records
          if insert_rows.isEmpty then
            (.error (.http ⟨400, "No valid data to insert"⟩), ⟨tried, [], 0⟩)
          else
            let inserted := loadBatches env 0 insert_rows
            if inserted = 0 then
              (.error (.http ⟨500, "No rows were successfully inserted"⟩),
               ⟨tried, [], 0⟩)
            else
              let meta := metaOf env filename uu t.cleaned_rows
              match env.catalogInsert meta with
              | .ok _ =>
                (.ok ⟨env.uploadUuid, dataTableName env.uploadUuid,
                      t.original_rows, t.cleaned_rows, inserted⟩,
                 ⟨tried, [meta], 0⟩)
              | .error e =>
                (.error (.http ⟨500, "ETL processing failed: " ++ e⟩),
                 ⟨tried, [], 1⟩)

/-! ## The HTTP layer (backend/routers/data.py) -/

/-- The fixed, known UUID used in place of the removed authentication
(data.py line 23). -/
def BYPASS_USER_ID : String := "11111111-1111-1111-1111-111111111111"

/-- An upload request: the client-supplied filename, whether the uploaded
content is empty, and the caller identity carried by the HTTP request.  The
authentication dependency is commented out in the code, so the handler never
reads `caller`. -/
structure FileUpload where
  filename : String
  isEmpty : Bool
  caller : Option String

structure UploadResponse where
  message : String
  metadata : IngestOk
  filename : String
deriving DecidableEq, Repr

/-- Embedding of the `upload_file` endpoint (data.py lines 31-82): suffix
validation, empty-content check, then `process_and_store_data` invoked with
`user_id = BYPASS_USER_ID`; HTTPExceptions re-raised as-is, any other
exception re-wrapped as a 500. -/
def upload_file (file : FileUpload) (env : Env) :
    Except HTTPException UploadResponse :=
  if !(endsWithS (lowerS file.filename) ".csv" ||
       endsWithS (lowerS file.filename) ".xls" ||
       endsWithS (lowerS file.filename) ".xlsx") then
    .error ⟨400, "Only CSV and Excel files are supported"⟩
  else if file.isEmpty then
    .error ⟨400, "Uploaded file is empty"⟩
  else
    match process_and_store_data file.filename BYPASS_USER_ID env with
    | (.ok out, _) =>
      .ok ⟨"File uploaded and processed successfully", out, file.filename⟩
    | (.error (.http e), _) => .error e
    | (.error (.valueError m), _) =>
      .error ⟨500, "File processing failed: " ++ m⟩

/-! ## The read path (etl.py get_filtered_data / fetch_table_data_rows) -/

/-- One catalog row of the `uploads` table, as read by the query layer. -/
structure CatalogRow where
  id : String
  user_id : String
  table_name : String

/-- One row of a physical data table: `id, user_id, row_data`. -/
structure DataRow where
  id : String
  user_id : String
  row_data : PyVal

/-- The storage state seen by the read path: the uploads catalog and, for
each physical table name, either its rows or the error its query raises. -/
structure DB where
  catalog : List CatalogRow
  tables : String → Except String (List DataRow)

/-- Flattening of one storage row for the preview path (etl.py lines
345-357): when `row_data` is a dict, copy it and inject `_record_id` and
`_user_id`; otherwise return the item as-is. -/
def flattenRow (d : DataRow) : PyVal :=
  match d.row_data with
  | .pydict es =>
    .pydict (es ++ [("_record_id", .pystr d.id), ("_user_id", .pystr d.user_id)])
  | _ =>
    .pydict [("id", .pystr d.id), ("user_id", .pystr d.user_id),
             ("row_data", d.row_data)]

/-- Embedding of `fetch_table_data_rows` (etl.py lines 307-369): canonicalize
the owner id (`ValueError` becomes a 400), resolve the upload in the catalog
scoped by owner via `maybe_single()` (modeled by the first matching row; 404
when none matches), then select up to `limit` owner-scoped rows from the
resolved physical table and flatten them; a raising table query becomes a
500. -/
def fetch_table_data_rows (upload_id user_id : String) (limit : Nat)
    (db : DB) : Except PyErr (List PyVal) :=
  match uuidCanon user_id with
  | none =>
    .error (.http ⟨400,
      "Invalid user ID format: badly formed hexadecimal UUID string"⟩)
  | some uu =>
    match db.catalog.filter (fun r => r.id == upload_id && r.user_id == uu) with
    | [] =>
      .error (.http ⟨404,
        "Dataset not found for upload_id: " ++ upload_id ++ ", user_id: " ++ uu⟩)
    | r :: _ =>
      match db.tables r.table_name with
      | .error e => .error (.http ⟨500, "Failed to fetch preview data: " ++ e⟩)
      | .ok rows =>
        .ok (((rows.filter (fun d => d.user_id == uu)).take limit).map flattenRow)

/-- Embedding of the `get_file_data` endpoint (data.py lines 111-147): the
two limit guards come before any storage access, then
`fetch_table_data_rows` is invoked with `user_id = BYPASS_USER_ID`.  As in
`upload_file`, `caller` models the caller identity the handler never
reads. -/
def get_file_data (upload_id : String) (limit : Int) (caller : Option String)
    (db : DB) : Except HTTPException (List PyVal) :=
  if limit > 1000 then
    .error ⟨400, "Limit cannot exceed 1000 rows for preview."⟩
  else if limit ≤ 0 then
    .error ⟨400, "Limit must be positive"⟩
  else
    match fetch_table_data_rows upload_id BYPASS_USER_ID limit.toNat db with
    | .ok data => .ok data
    | .error (.http e) => .error e
    | .error (.valueError _) => .error ⟨500, "Failed to retrieve data preview."⟩

/-- The filter shape accepted by the analytics aggregation
(models/schemas.py `DataFilter`); `search_term` and the date range are
declared but never applied by `get_filtered_data`. -/
structure DataFilter where
  table_names : Option (List String)
  search_term : Option String
  start_date : Option String
  end_date : Option String
  limit : Nat
  offset : Nat

/-- Flattening of one storage row for the analytics path (etl.py lines
279-287). -/
def flattenFiltered (tn : String) (d : DataRow) : PyVal :=
  match d.row_data with
  | .pydict es =>
    .pydict (es ++ [("_source_table", .pystr tn), ("_record_id", .pystr d.id)])
  | _ =>
    .pydict [("id", .pystr d.id), ("user_id", .pystr d.user_id),
             ("row_data", d.row_data), ("_source_table", .pystr tn)]

/-- Embedding of `get_filtered_data` (etl.py lines 241-301): resolve the
owner's catalog rows (optionally restricted to `table_names`; empty result
short-circuits to `[]`); query each resolved table for up to `limit` owner
rows, where a raising per-table query is logged and skipped (`continue`);
concatenate in catalog order and apply the final offset/limit slice.  A
ValueError from `uuid.UUID` lands in the generic handler (500). -/
def get_filtered_data (filters : DataFilter) (user_id : String) (db : DB) :
    Except PyErr (List PyVal) :=
  match uuidCanon user_id with
  | none => .error (.http ⟨500, "Failed to retrieve analytics data"⟩)
  | some uu =>
    let meta := db.catalog.filter (fun r =>
      r.user_id == uu &&
      (match filters.table_names with
       | some ns => ns.contains r.table_name
       | none => true))
    if meta.isEmpty then .ok []
    else
      let all_results := (meta.map (fun r =>
        match db.tables r.table_name with
        | .error _ => []
        | .ok rows =>
          ((rows.filter (fun d => d.user_id == uu)).take filters.limit).map
            (flattenFiltered r.table_name))).flatten
      let s := min filters.offset all_results.length
      let e := min (filters.offset + filters.limit) all_results.length
      .ok ((all_results.take e).drop s)

theorem uuidCanon_bypass : uuidCanon BYPASS_USER_ID = some BYPASS_USER_ID := by
  decide

theorem loadBatches_le (env : Env)
    (hrep : ∀ b i n, env.batchResult b i = Except.ok n → n ≤ b.length) :
    ∀ (k : Nat) (rows : List InsertRow) (i : Nat), rows.length ≤ k →
      loadBatches env i rows ≤ rows.length := by
  intro k
  induction k with
  | zero =>
    intro rows i h
    match rows with
    | [] => simp [loadBatches]
    | x :: xs => simp at h
  | succ k ih =>
    intro rows i h
    match rows with
    | [] => simp [loadBatches]
    | x :: xs =>
      have hrec : loadBatches env (i + 1) ((x :: xs).drop 50) ≤
          ((x :: xs).drop 50).length := by
        refine ih _ _ ?_
        simp at h ⊢
        omega
      have hcontrib :
          (match env.batchResult ((x :: xs).take 50) i with
           | .ok n => n
           | .error _ =>
             ((List.range ((x :: xs).take 50).length).filter
               (fun j => env.singleOk i j)).length) ≤
            ((x :: xs).take 50).length := by
        cases hb : env.batchResult ((x :: xs).take 50) i with
        | ok n => exact hrep _ _ _ hb
        | error e =>
          simpa using
            List.length_filter_le (fun j => env.singleOk i j)
              (List.range ((x :: xs).take 50).length)
      rw [loadBatches]
      have hlen : ((x :: xs).take 50).length + ((x :: xs).drop 50).length
          = (x :: xs).length := by
        simp
        omega
      omega

theorem insertRowsOf_map_length (uu : String) (cols : List String)
    (rows : List (List PyVal)) :
    (insertRowsOf uu (rows.map (fun r => PyVal.pydict (cols.zip r)))).length
      = rows.length := by
  induction rows with
  | nil => simp [insertRowsOf]
  | cons r rest ih =>
    simp only [List.map_cons, insertRowsOf, List.filterMap_cons] at *
    rw [mjs_pydict]
    simpa [PyVal.isDict] using ih

theorem insertRowsOf_transform_length (uu : String) (df : DataFrame) :
    (insertRowsOf uu (transformStage df).records).length
      = (transformStage df).cleaned_rows := by
  simp only [transformStage]
  exact insertRowsOf_map_length uu df.cols _

set_option maxHeartbeats 1600000

theorem process_eq_extract_error {filename user_id : String} {env : Env}
    {e : PyErr} (hex : extractStage filename env = .error e) :
    process_and_store_data filename user_id env = (.error e, ⟨[], [], 0⟩) := by
  simp only [process_and_store_data, hex]

theorem process_eq_empty_records {filename user_id : String} {env : Env}
    {df : DataFrame} (hex : extractStage filename env = .ok df)
    (hemp : (transformStage df).records.isEmpty = true) :
    process_and_store_data filename user_id env =
      (.error (.http ⟨400, "No data found in file after cleaning"⟩),
       ⟨[], [], 0⟩) := by
  simp only [process_and_store_data, hex, hemp]
  simp

theorem process_eq_bad_uuid {filename user_id : String} {env : Env}
    {df : DataFrame} (hex : extractStage filename env = .ok df)
    (hemp : (transformStage df).records.isEmpty = false)
    (huu : uuidCanon user_id = none) :
    process_and_store_data filename user_id env =
      (.error (.valueError "badly formed hexadecimal UUID string"),
       ⟨[], [], 0⟩) := by
  simp only [process_and_store_data, hex, hemp, huu]
  simp

theorem process_eq_prov_error {filename user_id : String} {env : Env}
    {df : DataFrame} {uu : String} {tried : List Nat} {e : HTTPException}
    (hex : extractStage filename env = .ok df)
    (hemp : (transformStage df).records.isEmpty = false)
    (huu : uuidCanon user_id = some uu)
    (hprov : provisionTable env = (tried, some e)) :
    process_and_store_data filename user_id env =
      (.error (.http e), ⟨tried, [], 0⟩) := by
  simp only [process_and_store_data, hex, hemp, huu, hprov]
  simp

theorem process_eq_no_valid_rows {filename user_id : String} {env : Env}
    {df : DataFrame} {uu : String} {tried : List Nat}
    (hex : extractStage filename env = .ok df)
    (hemp : (transformStage df).records.isEmpty = false)
    (huu : uuidCanon user_id = some uu)
    (hprov : provisionTable env = (tried, none))
    (hins : (insertRowsOf uu (transformStage df).records).isEmpty = true) :
    process_and_store_data filename user_id env =
      (.error (.http ⟨400, "No valid data to insert"⟩), ⟨tried, [], 0⟩) := by
  simp only [process_and_store_data, hex, hemp, huu, hprov, hins]
  simp

theorem process_eq_no_rows_inserted {filename user_id : String} {env : Env}
    {df : DataFrame} {uu : String} {tried : List Nat}
    (hex : extractStage filename env = .ok df)
    (hemp : (transformStage df).records.isEmpty = false)
    (huu : uuidCanon user_id = some uu)
    (hprov : provisionTable env = (tried, none))
    (hins : (insertRowsOf uu (transformStage df).records).isEmpty = false)
    (hz : loadBatches env 0 (insertRowsOf uu (transformStage df).records) = 0) :
    process_and_store_data filename user_id env =
      (.error (.http ⟨500, "No rows were successfully inserted"⟩),
       ⟨tried, [], 0⟩) := by
  simp only [process_and_store_data, hex, hemp, huu, hprov, hins, hz]
  simp

theorem process_eq_catalog_error {filename user_id : String} {env : Env}
    {df : DataFrame} {uu : String} {tried : List Nat} {e : String}
    (hex : extractStage filename env = .ok df)
    (hemp : (transformStage df).records.isEmpty = false)
    (huu : uuidCanon user_id = some uu)
    (hprov : provisionTable env = (tried, none))
    (hins : (insertRowsOf uu (transformStage df).records).isEmpty = false)
    (hz : loadBatches env 0 (insertRowsOf uu (transformStage df).records) ≠ 0)
    (hcat : env.catalogInsert
        (metaOf env filename uu (transformStage df).cleaned_rows) = .error e) :
    process_and_store_data filename user_id env =
      (.error (.http ⟨500, "ETL processing failed: " ++ e⟩),
       ⟨tried, [], 1⟩) := by
  simp only [process_and_store_data, hex, hemp, huu, hprov, hins, hcat]
  simp [hz]

theorem process_eq_success {filename user_id : String} {env : Env}
    {df : DataFrame} {uu : String} {tried : List Nat} {u : Unit}
    (hex : extractStage filename env = .ok df)
    (hemp : (transformStage df).records.isEmpty = false)
    (huu : uuidCanon user_id = some uu)
    (hprov : provisionTable env = (tried, none))
    (hins : (insertRowsOf uu (transformStage df).records).isEmpty = false)
    (hz : loadBatches env 0 (insertRowsOf uu (transformStage df).records) ≠ 0)
    (hcat : env.catalogInsert
        (metaOf env filename uu (transformStage df).cleaned_rows) = .ok u) :
    process_and_store_data filename user_id env =
      (.ok ⟨env.uploadUuid, dataTableName env.uploadUuid,
            (transformStage df).original_rows, (transformStage df).cleaned_rows,
            loadBatches env 0 (insertRowsOf uu (transformStage df).records)⟩,
       ⟨tried, [metaOf env filename uu (transformStage df).cleaned_rows], 0⟩) := by
  simp only [process_and_store_data, hex, hemp, huu, hprov, hins, hcat]
  simp [hz]

/-- C1: when `process_and_store_data` returns with status "success" (and the
storage backend reports at most as many inserted rows as each batch
contains), the returned `inserted_rows` is at most `cleaned_rows` and
strictly positive, and exactly one catalog row is written for that upload,
whose `rows` field (row_count) equals `cleaned_rows` — the cleaned/attempted
count, not the confirmed-inserted count. -/
theorem ingest_success_invariants (filename user_id : String) (env : Env)
    (out : IngestOk) (tr : Trace)
    (hrep : ∀ b i n, env.batchResult b i = Except.ok n → n ≤ b.length)
    (h : process_and_store_data filename user_id env = (.ok out, tr)) :
    out.inserted_rows ≤ out.cleaned_rows ∧ 0 < out.inserted_rows ∧
    ∃ m, tr.catalogWrites = [m] ∧ m.rows = out.cleaned_rows ∧
      m.id = out.upload_id := by
  cases hex : extractStage filename env with
  | error e => rw [process_eq_extract_error hex] at h; simp at h
  | ok df =>
    cases hemp : (transformStage df).records.isEmpty with
    | true => rw [process_eq_empty_records hex hemp] at h; simp at h
    | false =>
      cases huu : uuidCanon user_id with
      | none => rw [process_eq_bad_uuid hex hemp huu] at h; simp at h
      | some uu =>
        rcases hprov : provisionTable env with ⟨tried, perr⟩
        cases perr with
        | some e => rw [process_eq_prov_error hex hemp huu hprov] at h; simp at h
        | none =>
          cases hins : (insertRowsOf uu (transformStage df).records).isEmpty with
          | true => rw [process_eq_no_valid_rows hex hemp huu hprov hins] at h; simp at h
          | false =>
            by_cases hz :
                loadBatches env 0 (insertRowsOf uu (transformStage df).records) = 0
            · rw [process_eq_no_rows_inserted hex hemp huu hprov hins hz] at h
              simp at h
            · cases hcat : env.catalogInsert
                  (metaOf env filename uu (transformStage df).cleaned_rows) with
              | error e =>
                rw [process_eq_catalog_error hex hemp huu hprov hins hz hcat] at h
                simp at h
              | ok u =>
                rw [process_eq_success hex hemp huu hprov hins hz hcat] at h
                simp at h
                obtain ⟨h1, h2⟩ := h
                subst h1
                subst h2
                refine ⟨?_, Nat.pos_of_ne_zero hz, ⟨_, rfl, rfl, rfl⟩⟩
                exact le_trans (loadBatches_le env hrep _ _ 0 le_rfl)
                  (insertRowsOf_transform_length _ _).le

/-- C2 (amended): after the physical table has been provisioned, an
unrecoverable data-insertion failure (zero rows inserted) raises
`HTTPException(500, "No rows were successfully inserted")`, which the
`except HTTPException: raise` handler re-raises untouched: no catalog row is
written and — contrary to the original claim — NO drop of the just-created
table is attempted (`dropAttempts = 0`).  The best-effort drop runs only for
a non-HTTP exception escaping the try block (here: a failing catalog
insert), in which case no catalog row is recorded, exactly one drop is
attempted, and the propagated 500 wraps the original error; since
`env.dropTable` is unconstrained by the hypotheses, the conclusion holds
whether the cleanup drop succeeds or fails: the original error is never
masked. -/
theorem ingest_failure_paths (filename user_id : String) (env : Env)
    (df : DataFrame) (uu : String) (tried : List Nat)
    (hex : extractStage filename env = .ok df)
    (hemp : (transformStage df).records.isEmpty = false)
    (huu : uuidCanon user_id = some uu)
    (hprov : provisionTable env = (tried, none))
    (hins : (insertRowsOf uu (transformStage df).records).isEmpty = false) :
    (loadBatches env 0 (insertRowsOf uu (transformStage df).records) = 0 →
      process_and_store_data filename user_id env =
        (.error (.http ⟨500, "No rows were successfully inserted"⟩),
         ⟨tried, [], 0⟩)) ∧
    (∀ e, loadBatches env 0 (insertRowsOf uu (transformStage df).records) ≠ 0 →
      env.catalogInsert
          (metaOf env filename uu (transformStage df).cleaned_rows) =
        .error e →
      process_and_store_data filename user_id env =
        (.error (.http ⟨500, "ETL processing failed: " ++ e⟩),
         ⟨tried, [], 1⟩)) := by
  constructor
  · intro hz
    exact process_eq_no_rows_inserted hex hemp huu hprov hins hz
  · intro e hz hcat
    exact process_eq_catalog_error hex hemp huu hprov hins hz hcat

/-- C7: the provisioning cascade tries its strategies in fixed priority
order — raw create-table via `exec_sql`, then the `create_unique_data_table`
RPC, then the existence probe treated as success when the table exists —
and when all three fail (probe reporting the table absent, or the probe
itself raising), the resulting `HTTPException(500)` wraps `str(create_err)`,
the original error of strategy 1; a provisioning error makes the whole
ingestion fail with exactly that error. -/
theorem provisioning_cascade (env : Env) :
    (env.execSql = .ok () → provisionTable env = ([1], none)) ∧
    (∀ e1, env.execSql = .error e1 → env.createRpc = .ok () →
      provisionTable env = ([1, 2], none)) ∧
    (∀ e1 e2, env.execSql = .error e1 → env.createRpc = .error e2 →
      env.existsCheck = .ok true → provisionTable env = ([1, 2, 3], none)) ∧
    (∀ e1 e2, env.execSql = .error e1 → env.createRpc = .error e2 →
      (env.existsCheck = .ok false ∨ ∃ e3, env.existsCheck = .error e3) →
      provisionTable env =
        ([1, 2, 3], some ⟨500, "Failed to create table: " ++ e1⟩)) ∧
    (∀ filename user_id df uu tried e,
      extractStage filename env = .ok df →
      (transformStage df).records.isEmpty = false →
      uuidCanon user_id = some uu →
      provisionTable env = (tried, some e) →
      process_and_store_data filename user_id env =
        (.error (.http e), ⟨tried, [], 0⟩)) := by
  refine ⟨?_, ?_, ?_, ?_, ?_⟩
  · intro h; simp [provisionTable, h]
  · intro e1 h1 h2; simp [provisionTable, h1, h2]
  · intro e1 e2 h1 h2 h3; simp [provisionTable, h1, h2, h3]
  · intro e1 e2 h1 h2 h3
    rcases h3 with h3 | ⟨e3, h3⟩ <;> simp [provisionTable, h1, h2, h3]
  · intro filename user_id df uu tried e hex hemp huu hprov
    exact process_eq_prov_error hex hemp huu hprov

/-! ## Concrete scenarios -/

/-- A small parsed dataframe: two columns, two non-empty rows. -/
def dfTwo : DataFrame :=
  ⟨["name", "amount"], [false, false],
   [[.pystr "a", .pyint 1], [.pystr "b", .pyint 2]]⟩

/-- A 6-row dataframe whose third row is fully empty (NaN cells). -/
def dfSix : DataFrame :=
  ⟨["name", "amount"], [false, false],
   [[.pystr "r1", .pyint 1], [.pystr "r2", .pyint 2],
    [.pynone, .pyfloat .nan],
    [.pystr "r4", .pyint 4], [.pystr "r5", .pyint 5],
    [.pystr "r6", .pyint 6]]⟩

/-- Environment where the table is created by strategy 1 but every bulk
insert and every fallback single insert fails. -/
def envInsertFail : Env :=
  { uploadUuid := "aaaaaaaa-bbbb-4ccc-8ddd-eeeeffff0000",
    now := "2024-01-01T00:00:00",
    parseCsv := .ok dfTwo,
    parseExcel := .error "not excel",
    execSql := .ok (),
    createRpc := .error "rpc unavailable",
    existsCheck := .error "probe unavailable",
    batchResult := fun _ _ => .error "insert failed",
    singleOk := fun _ _ => false,
    catalogInsert := fun _ => .ok (),
    dropTable := .ok () }

/-- Environment where loading succeeds but the catalog write raises and the
cleanup drop itself fails as well. -/
def envCatalogFail : Env :=
  { uploadUuid := "aaaaaaaa-bbbb-4ccc-8ddd-eeeeffff0000",
    now := "2024-01-01T00:00:00",
    parseCsv := .ok dfTwo,
    parseExcel := .error "not excel",
    execSql := .ok (),
    createRpc := .error "rpc unavailable",
    existsCheck := .error "probe unavailable",
    batchResult := fun b _ => .ok b.length,
    singleOk := fun _ _ => true,
    catalogInsert := fun _ => .error "catalog down",
    dropTable := .error "drop failed" }

/-- Environment where everything succeeds. -/
def envOk : Env :=
  { uploadUuid := "aaaaaaaa-bbbb-4ccc-8ddd-eeeeffff0000",
    now := "2024-01-01T00:00:00",
    parseCsv := .ok dfTwo,
    parseExcel := .error "not excel",
    execSql := .ok (),
    createRpc := .error "unused",
    existsCheck := .ok false,
    batchResult := fun b _ => .ok b.length,
    singleOk := fun _ _ => true,
    catalogInsert := fun _ => .ok (),
    dropTable := .ok () }

/-- Environment where all three provisioning strategies fail. -/
def envAllFail : Env :=
  { uploadUuid := "aaaaaaaa-bbbb-4ccc-8ddd-eeeeffff0000",
    now := "2024-01-01T00:00:00",
    parseCsv := .ok dfTwo,
    parseExcel := .error "not excel",
    execSql := .error "ddl denied",
    createRpc := .error "rpc denied",
    existsCheck := .ok false,
    batchResult := fun b _ => .ok b.length,
    singleOk := fun _ _ => true,
    catalogInsert := fun _ => .ok (),
    dropTable := .ok () }

/-- The record rows built from `dfTwo`, computed once for the scenarios. -/
theorem insertRows_dfTwo :
    insertRowsOf BYPASS_USER_ID (transformStage dfTwo).records =
      [⟨BYPASS_USER_ID, .pydict [("name", .pystr "a"), ("amount", .pyint 1)]⟩,
       ⟨BYPASS_USER_ID, .pydict [("name", .pystr "b"), ("amount", .pyint 2)]⟩] := by
  simp [insertRowsOf, transformStage, dfTwo, rowAllNA, isnaB, applyDtFlags,
    mjs_pydict, mjsEntries, make_json_safe, PyVal.isDict]

theorem loadBatches_dfTwo_zero :
    loadBatches envInsertFail 0
      (insertRowsOf BYPASS_USER_ID (transformStage dfTwo).records) = 0 := by
  rw [insertRows_dfTwo]
  simp [loadBatches, envInsertFail]

/-- Suffix dispatch computed for the concrete filename "data.csv". -/
theorem extract_csv_ok {env : Env} {df : DataFrame}
    (h : env.parseCsv = .ok df) : extractStage "data.csv" env = .ok df := by
  simp only [extractStage, h]
  simp +decide

/-- C2 counterexample: table creation succeeds, then every insert fails, so
the ingestion fails unrecoverably after the physical table exists.  Contrary
to the claim, the trace shows no drop attempt (`dropAttempts = 0`) — the
`HTTPException(500, "No rows were successfully inserted")` is re-raised by
`except HTTPException: raise`, bypassing the cleanup handler — though, as the
claim says, no catalog row is written. -/
theorem ingest_insert_failure_no_drop :
    process_and_store_data "data.csv" BYPASS_USER_ID envInsertFail =
      (.error (.http ⟨500, "No rows were successfully inserted"⟩),
       ⟨[1], [], 0⟩) := by
  refine process_eq_no_rows_inserted (extract_csv_ok rfl) (by decide)
    uuidCanon_bypass rfl ?_ loadBatches_dfTwo_zero
  rw [insertRows_dfTwo]
  rfl

/-- C2 witness: the amended theorem applied to the catalog-failure
environment, where the cleanup drop is attempted (and itself fails) and the
propagated error still wraps the original catalog error. -/
theorem ingest_failure_paths_witness :
    process_and_store_data "data.csv" BYPASS_USER_ID envCatalogFail =
      (.error (.http ⟨500, "ETL processing failed: catalog down"⟩),
       ⟨[1], [], 1⟩) := by
  have hz : loadBatches envCatalogFail 0
      (insertRowsOf BYPASS_USER_ID (transformStage dfTwo).records) ≠ 0 := by
    rw [insertRows_dfTwo]
    simp [loadBatches, envCatalogFail]
  exact (ingest_failure_paths "data.csv" BYPASS_USER_ID envCatalogFail dfTwo
    BYPASS_USER_ID [1] (extract_csv_ok rfl) (by decide) uuidCanon_bypass rfl
    (by rw [insertRows_dfTwo]; rfl)).2 "catalog down" hz rfl

/-- C1 witness: a fully successful ingestion of the two-row file, with the
invariants instantiated at the returned value. -/
theorem ingest_success_invariants_witness :
    process_and_store_data "data.csv" BYPASS_USER_ID envOk =
      (.ok ⟨envOk.uploadUuid, dataTableName envOk.uploadUuid,
            (transformStage dfTwo).original_rows,
            (transformStage dfTwo).cleaned_rows,
            loadBatches envOk 0
              (insertRowsOf BYPASS_USER_ID (transformStage dfTwo).records)⟩,
       ⟨[1], [metaOf envOk "data.csv" BYPASS_USER_ID
               (transformStage dfTwo).cleaned_rows], 0⟩) ∧
    loadBatches envOk 0
        (insertRowsOf BYPASS_USER_ID (transformStage dfTwo).records) = 2 ∧
    (transformStage dfTwo).cleaned_rows = 2 ∧
    0 < loadBatches envOk 0
        (insertRowsOf BYPASS_USER_ID (transformStage dfTwo).records) := by
  have hrep : ∀ b i n, envOk.batchResult b i = Except.ok n → n ≤ b.length := by
    intro b i n h
    injection h with h
    omega
  have hz2 : loadBatches envOk 0
      (insertRowsOf BYPASS_USER_ID (transformStage dfTwo).records) = 2 := by
    rw [insertRows_dfTwo]
    simp [loadBatches, envOk]
  have hp : process_and_store_data "data.csv" BYPASS_USER_ID envOk =
      (.ok ⟨envOk.uploadUuid, dataTableName envOk.uploadUuid,
            (transformStage dfTwo).original_rows,
            (transformStage dfTwo).cleaned_rows,
            loadBatches envOk 0
              (insertRowsOf BYPASS_USER_ID (transformStage dfTwo).records)⟩,
       ⟨[1], [metaOf envOk "data.csv" BYPASS_USER_ID
               (transformStage dfTwo).cleaned_rows], 0⟩) :=
    process_eq_success (extract_csv_ok rfl) (by decide) uuidCanon_bypass rfl
      (by rw [insertRows_dfTwo]; rfl) (by rw [hz2]; decide) rfl
  have hinv := ingest_success_invariants "data.csv" BYPASS_USER_ID envOk _ _
    hrep hp
  exact ⟨hp, hz2, rfl, hinv.2.1⟩

/-- C7 witness: the all-fail environment exercises the order and the final
error wrapping strategy 1's message. -/
theorem provisioning_cascade_witness :
    provisionTable envAllFail =
      ([1, 2, 3], some ⟨500, "Failed to create table: ddl denied"⟩) ∧
    provisionTable envOk = ([1], none) :=
  ⟨(provisioning_cascade envAllFail).2.2.2.1 "ddl denied" "rpc denied"
     rfl rfl (Or.inl rfl),
   (provisioning_cascade envOk).1 rfl⟩

/-- C6: for a parsed dataframe with at least one non-empty row, the cleaned
row count is at most the original row count, the number of record mappings
equals the cleaned count, a row is dropped exactly when every cell is
empty/missing (so the cleaned rows are precisely those where some cell is
non-NA), and the record sequence is non-empty. -/
theorem extract_cleaning_counts (df : DataFrame)
    (h : ∃ r ∈ df.rows, rowAllNA r = false) :
    (transformStage df).cleaned_rows ≤ (transformStage df).original_rows ∧
    (transformStage df).records.length = (transformStage df).cleaned_rows ∧
    (transformStage df).cleaned_rows =
      (df.rows.filter (fun r => !(rowAllNA r))).length ∧
    (transformStage df).records ≠ [] := by
  obtain ⟨r, hr, hna⟩ := h
  refine ⟨?_, ?_, ?_, ?_⟩
  · simpa [transformStage] using List.length_filter_le _ df.rows
  · simp [transformStage]
  · simp [transformStage]
  · simp only [transformStage, ne_eq, List.map_eq_nil_iff]
    intro he
    exact List.ne_nil_of_mem
      (List.mem_filter.mpr ⟨hr, by simp [hna]⟩) he

/-- C6 witness: the 6-row file with one fully-empty row yields
`original_rows = 6` and `cleaned_rows = 5`. -/
theorem extract_cleaning_counts_witness :
    (∃ r ∈ dfSix.rows, rowAllNA r = false) ∧
    (transformStage dfSix).original_rows = 6 ∧
    (transformStage dfSix).cleaned_rows = 5 ∧
    (transformStage dfSix).records.length = (transformStage dfSix).cleaned_rows ∧
    (transformStage dfSix).cleaned_rows ≤ (transformStage dfSix).original_rows := by
  have h : ∃ r ∈ dfSix.rows, rowAllNA r = false := by decide
  have hc := extract_cleaning_counts dfSix h
  exact ⟨h, by decide, by decide, hc.2.1, hc.1⟩

/-- C5: for an upload whose catalog entries record owner A, any
syntactically valid owner id B whose canonical form differs from A makes
`fetch_table_data_rows` fail with HTTP 404 (`NotFound`); no rows of A's
physical table are returned, and the table is not even resolved. -/
theorem fetch_cross_owner_not_found (db : DB) (upload_id A B Bc : String)
    (limit : Nat)
    (hA : ∀ r ∈ db.catalog, r.id = upload_id → r.user_id = A)
    (hB : uuidCanon B = some Bc) (hne : Bc ≠ A) :
    fetch_table_data_rows upload_id B limit db =
      .error (.http ⟨404,
        "Dataset not found for upload_id: " ++ upload_id ++
          ", user_id: " ++ Bc⟩) := by
  have hfilter :
      db.catalog.filter (fun r => r.id == upload_id && r.user_id == Bc) = [] := by
    rw [List.filter_eq_nil_iff]
    intro r hr
    simp only [Bool.and_eq_true, beq_iff_eq, not_and]
    intro h1 h2
    exact hne (h2.symm.trans (hA r hr h1))
  simp only [fetch_table_data_rows, hB, hfilter]

/-- A one-upload storage state owned by the bypass user. -/
def dbOwnerA : DB :=
  ⟨[⟨"u1", BYPASS_USER_ID, "data_t1"⟩],
   fun _ => .ok [⟨"r1", BYPASS_USER_ID, .pydict [("name", .pystr "x")]⟩]⟩

/-- C5 witness: owner B's id is valid and distinct from the bypass owner, so
the preview of the bypass owner's upload is a 404 for B. -/
theorem fetch_cross_owner_not_found_witness :
    fetch_table_data_rows "u1" "22222222-2222-2222-2222-222222222222" 100
      dbOwnerA =
      .error (.http ⟨404,
        "Dataset not found for upload_id: u1, user_id: 22222222-2222-2222-2222-222222222222"⟩) :=
  fetch_cross_owner_not_found dbOwnerA "u1" BYPASS_USER_ID
    "22222222-2222-2222-2222-222222222222"
    "22222222-2222-2222-2222-222222222222" 100
    (by decide) (by decide) (by decide)

/-- C8: the preview entry point rejects every row limit that exceeds 1000 or
is not positive with HTTP 400, and does so before any storage access: the
result is the same for every storage state `db`. -/
theorem preview_limit_guard (upload_id : String) (limit : Int)
    (caller : Option String) :
    (limit > 1000 → ∀ db : DB,
      get_file_data upload_id limit caller db =
        .error ⟨400, "Limit cannot exceed 1000 rows for preview."⟩) ∧
    (limit ≤ 0 → ∀ db : DB,
      get_file_data upload_id limit caller db =
        .error ⟨400, "Limit must be positive"⟩) := by
  constructor
  · intro h db
    simp [get_file_data, h]
  · intro h db
    have h1 : ¬ limit > 1000 := by omega
    simp [get_file_data, h1, h]

/-- An empty storage state. -/
def dbEmpty : DB := ⟨[], fun _ => .ok []⟩

/-- C8 witness: a preview request with limit 1500 is rejected with 400. -/
theorem preview_limit_guard_witness :
    get_file_data "abc" 1500 none dbEmpty =
      .error ⟨400, "Limit cannot exceed 1000 rows for preview."⟩ :=
  (preview_limit_guard "abc" 1500 none).1 (by decide) dbEmpty

/-- C9: both HTTP entry points ignore the caller identity entirely and pass
the fixed constant `BYPASS_USER_ID = 11111111-1111-1111-1111-111111111111`
to the ETL core: two upload requests differing only in caller behave
identically, as do two preview requests, so every upload is stored under and
fetched against this single bypass owner. -/
theorem bypass_owner_identity (f1 f2 : FileUpload) (env : Env)
    (upload_id : String) (limit : Int) (c1 c2 : Option String) (db : DB)
    (hfn : f1.filename = f2.filename) (hem : f1.isEmpty = f2.isEmpty) :
    upload_file f1 env = upload_file f2 env ∧
    get_file_data upload_id limit c1 db = get_file_data upload_id limit c2 db ∧
    BYPASS_USER_ID = "11111111-1111-1111-1111-111111111111" := by
  obtain ⟨n1, e1, ca1⟩ := f1
  obtain ⟨n2, e2, ca2⟩ := f2
  simp only at hfn hem
  subst hfn
  subst hem
  exact ⟨rfl, rfl, rfl⟩

/-- C9 witness: two identical requests from different callers produce
identical results on a concrete environment and storage state. -/
theorem bypass_owner_identity_witness :
    upload_file ⟨"data.csv", false, some "alice"⟩ envOk =
      upload_file ⟨"data.csv", false, some "bob"⟩ envOk ∧
    get_file_data "u1" 10 (some "alice") dbOwnerA =
      get_file_data "u1" 10 (some "bob") dbOwnerA :=
  ⟨(bypass_owner_identity ⟨"data.csv", false, some "alice"⟩
      ⟨"data.csv", false, some "bob"⟩ envOk "u1" 10 (some "alice")
      (some "bob") dbOwnerA rfl rfl).1,
   (bypass_owner_identity ⟨"data.csv", false, some "alice"⟩
      ⟨"data.csv", false, some "bob"⟩ envOk "u1" 10 (some "alice")
      (some "bob") dbOwnerA rfl rfl).2.1⟩

/-- C10: in `get_filtered_data`, a physical table whose per-table query
raises is silently skipped: the call returns the same result as if that
table had no rows, and it always returns a success (`.ok`), signaling no
failure to the caller. -/
theorem filtered_skips_failing_tables (filters : DataFilter)
    (user_id uu t err : String) (db : DB)
    (huu : uuidCanon user_id = some uu)
    (ht : db.tables t = .error err) :
    get_filtered_data filters user_id db =
      get_filtered_data filters user_id
        ⟨db.catalog, fun n => if n = t then .ok [] else db.tables n⟩ ∧
    ∃ l, get_filtered_data filters user_id db = .ok l := by
  constructor
  · simp only [get_filtered_data, huu]
    have hmap :
        ∀ r ∈ db.catalog.filter (fun r =>
          r.user_id == uu &&
          (match filters.table_names with
           | some ns => ns.contains r.table_name
           | none => true)),
          (match db.tables r.table_name with
           | .error _ => ([] : List PyVal)
           | .ok rows =>
             ((rows.filter (fun d : DataRow => d.user_id == uu)).take
               filters.limit).map (flattenFiltered r.table_name)) =
          (match (if r.table_name = t then Except.ok ([] : List DataRow)
                  else db.tables r.table_name) with
           | .error _ => ([] : List PyVal)
           | .ok rows =>
             ((rows.filter (fun d : DataRow => d.user_id == uu)).take
               filters.limit).map (flattenFiltered r.table_name)) := by
      intro r _
      by_cases hrt : r.table_name = t
      · rw [hrt, ht]
        simp
      · simp [hrt]
    rw [List.map_congr_left hmap]
  · simp only [get_filtered_data, huu]
    split
    · exact ⟨[], rfl⟩
    · exact ⟨_, rfl⟩

/-- Storage state with two cataloged tables, the first of which raises on
query. -/
def dbMixed : DB :=
  ⟨[⟨"u1", BYPASS_USER_ID, "data_t1"⟩, ⟨"u2", BYPASS_USER_ID, "data_t2"⟩],
   fun n => if n = "data_t1" then .error "boom"
            else .ok [⟨"r2", BYPASS_USER_ID, .pydict [("k", .pyint 5)]⟩]⟩

/-- The default analytics filter: no table restriction, limit 1000,
offset 0. -/
def filtersDefault : DataFilter := ⟨none, none, none, none, 1000, 0⟩

/-- C10 witness: with one of two tables raising, the aggregation equals the
one where that table is empty, and the call still reports success. -/
theorem filtered_skips_failing_tables_witness :
    get_filtered_data filtersDefault BYPASS_USER_ID dbMixed =
      get_filtered_data filtersDefault BYPASS_USER_ID
        ⟨dbMixed.catalog,
         fun n => if n = "data_t1" then .ok [] else dbMixed.tables n⟩ ∧
    ∃ l, get_filtered_data filtersDefault BYPASS_USER_ID dbMixed = .ok l :=
  filtered_skips_failing_tables filtersDefault BYPASS_USER_ID BYPASS_USER_ID
    "data_t1" "boom" dbMixed uuidCanon_bypass rfl
